import Mathlib

/-!
Verification development for the arkive asset service: a shallow embedding of
the access-decision middleware, the auth verification handoff, the
ownership/role/ACL permission query, the signed thumbnail-ticket issuer and
the permission-sync transaction of the update route, together with theorems
settling the specification claims about them.

Remote calls (auth verification, policy lookup, database queries) are
modelled as oracle inputs: each definition takes the outcome of every
outbound call it makes as an explicit argument and is otherwise a faithful
translation of the corresponding Rust function.  A `none` or dedicated
`panicked` result models a Rust panic (an `unwrap()` on an error value).
-/

namespace Arkive

/-- UUIDs are modelled by their canonical string rendering; the embedding
never needs to parse them, only to compare and format them. -/
abbrev Uuid := String

/-- Identity claims returned by the auth service (state/models.rs). -/
structure Claims where
  user_id : Uuid
  project_id : Uuid
deriving DecidableEq

/-- Body of a successful response of POST auth/verify (state/models.rs). -/
structure VerifyJWTResponse where
  claims : Option Claims
deriving DecidableEq

/-- Body of the policy lookup response (state/models.rs). -/
structure PermissionCheckResponse where
  is_project_owner : Bool
  role_id : Option Uuid
  permission_id : Option Uuid
deriving DecidableEq

/-- A persisted row of the images table, restricted to the columns the
permission query touches. -/
structure ImageRow where
  id : Uuid
  owner_id : Uuid
deriving DecidableEq

/-- A persisted row of the entity_permissions table. -/
structure EntityPermissionRow where
  related_id : Uuid
  user_id : Option Uuid
  role_id : Option Uuid
  permission_id : Option Uuid
deriving DecidableEq

/-- A snapshot of the relational store as seen by one query. -/
structure Store where
  images : List ImageRow
  entity_permissions : List EntityPermissionRow

/-- SQL equality between two nullable operands: a NULL on either side never
matches (three-valued logic collapsed to the WHERE-clause reading). -/
def sqlEqOpt (a b : Option Uuid) : Bool :=
  match a, b with
  | some x, some y => x = y
  | _, _ => false

/-- SQL equality between a nullable operand and a non-null one. -/
def sqlEqVal (a : Option Uuid) (b : Uuid) : Bool :=
  match a with
  | some x => x = b
  | none => false

/-- Rows of the LEFT JOIN of images with entity_permissions on
entity_permissions.related_id = images.id, as produced by the middleware
query (crud_routes.rs lines 493-506): an image with no matching ACL row
contributes a single row with NULL ACL columns. -/
def joinRowsFor (eps : List EntityPermissionRow) (img : ImageRow) :
    List (ImageRow × Option EntityPermissionRow) :=
  if (eps.filter (fun ep => ep.related_id = img.id)).isEmpty then [(img, none)]
  else (eps.filter (fun ep => ep.related_id = img.id)).map (fun ep => (img, some ep))

def leftJoinRows (st : Store) : List (ImageRow × Option EntityPermissionRow) :=
  st.images.flatMap (joinRowsFor st.entity_permissions)

/-- The WHERE clause of the middleware permission query, evaluated on one
joined row, with the query parameters
(id, claims.user_id, permissions.role_id, permissions.permission_id). -/
def permissionRowCond (imgId userId : Uuid) (roleId permId : Option Uuid)
    (r : ImageRow × Option EntityPermissionRow) : Bool :=
  r.1.id = imgId &&
    ((r.1.owner_id = userId)
      || sqlEqOpt (r.2.bind (fun ep => ep.role_id)) roleId
      || (sqlEqVal (r.2.bind (fun ep => ep.user_id)) userId
          && sqlEqOpt (r.2.bind (fun ep => ep.permission_id)) permId
          && sqlEqVal (r.2.map (fun ep => ep.related_id)) r.1.id))

/-- The joined rows that pass the WHERE clause: the result set of the
middleware permission query (one SELECT TRUE row per passing join row; the
query carries no LIMIT and no DISTINCT). -/
def matchingRows (st : Store) (imgId userId : Uuid)
    (roleId permId : Option Uuid) :
    List (ImageRow × Option EntityPermissionRow) :=
  (leftJoinRows st).filter (permissionRowCond imgId userId roleId permId)

/-- Semantics of client.query_opt on the permission query: zero rows yield
Ok None, exactly one yields Ok Some, and two or more rows yield Err,
because query_opt rejects a result set with more than one row. -/
def permissionQueryOpt (st : Store) (imgId userId : Uuid)
    (roleId permId : Option Uuid) :
    Except String (Option (ImageRow × Option EntityPermissionRow)) :=
  match matchingRows st imgId userId roleId permId with
  | [] => .ok none
  | [r] => .ok (some r)
  | _ => .error "query returned more than one row"

/-- The resolver block of permission_middleware (crud_routes.rs lines
490-516).  The store argument is the outcome of the query round trip; the
result is `none` when the code panics.  Both a transport-level store error
and query_opt's more-than-one-row error land in the same branch of the
source, which evaluates the discarded statement
`permission_check.is_err()` into a bare `false;` and then calls
`.unwrap()` on the error value, panicking; a successful round trip grants
access iff the returned optional row is Some. -/
def resolvePermission (perms : PermissionCheckResponse) (userId imgId : Uuid)
    (store : Except String Store) : Option Bool :=
  match perms.is_project_owner with
  | true => some true
  | false =>
    match store with
    | .error _ => none
    | .ok st =>
      match permissionQueryOpt st imgId userId perms.role_id perms.permission_id with
      | .error _ => none
      | .ok r => some r.isSome

/-- Result of check_auth (auth_utils.rs lines 13-48), given the status of
the verify response and its parsed body (`none` models a body that fails to
deserialize). -/
def check_auth (verifyStatus : Nat) (verifyParse : Option VerifyJWTResponse) :
    Except (Nat × String) VerifyJWTResponse :=
  if verifyStatus = 200 then
    match verifyParse with
    | none => .error (401, "UNAUTHORIZED")
    | some d => .ok d
  else .error (401, "UNAUTHORIZED")

/-- Character-list test that pat occurs at the start of s. -/
def leadsWith : List Char → List Char → Bool
  | [], _ => true
  | _ :: _, [] => false
  | a :: as₁, b :: bs => a = b && leadsWith as₁ bs

/-- Character-list test that pat occurs somewhere inside s. -/
def hasRun (pat : List Char) : List Char → Bool
  | [] => pat.isEmpty
  | c :: rest => leadsWith pat (c :: rest) || hasRun pat rest

/-- Rust str::contains as used by the middleware action match. -/
def strContains (s pat : String) : Bool :=
  hasRun pat.toList s.toList

/-- Action classification of permission_middleware (crud_routes.rs lines
401-407): guards are tried in source order. -/
def classifyAction (url : String) (methodIsDelete : Bool) : String :=
  if strContains url "/update/" then "update"
  else if strContains url "/delete/" || methodIsDelete then "delete"
  else if strContains url "upload" then "upload"
  else if strContains url "download" then "read"
  else "NONE"

/-- Uniform error body used by every infrastructure failure branch of the
middleware. -/
def errorBody : String := "There was an error with your request."

/-- Body of AppResponse::Auth, the genuine permission denial
(enums/mod.rs lines 115-125, rendered with status 500). -/
def denyBody : String := "You do not have permission to perform this action."

/-- Outbound calls the middleware can make, in the order it makes them. -/
inductive ExtCall
  | verifyC
  | policyC
  | storeC
deriving DecidableEq

/-- Observable outcome of the middleware: an early response, a panic, or
passing control to the protected handler via next.run. -/
inductive MwOutcome
  | respond (status : Nat) (message : String)
  | panicked
  | allow
deriving DecidableEq

/-- Request-derived inputs of permission_middleware.  parsedId is the
result of Uuid::from_str on the last path segment (`none` = parse error). -/
structure MwInput where
  url : String
  methodIsDelete : Bool
  parsedId : Option Uuid

/-- Outcomes of the outbound calls the middleware may make.  A transport
failure of the verify call is distinguished because the source unwraps it
and would panic. -/
structure MwOracles where
  verifyTransportOk : Bool
  verifyStatus : Nat
  verifyParse : Option VerifyJWTResponse
  policyTransportOk : Bool
  policyParse : Option PermissionCheckResponse
  clientOk : Bool
  store : Except String Store

/-- Shallow embedding of permission_middleware (crud_routes.rs lines
387-523), returning the outcome together with the trace of outbound calls
actually issued. -/
def permission_middleware (inp : MwInput) (o : MwOracles) :
    MwOutcome × List ExtCall :=
  match inp.parsedId with
  | none => (.respond 500 errorBody, [])
  | some imgId =>
    if classifyAction inp.url inp.methodIsDelete = "NONE" then
      (.respond 500 errorBody, [])
    else if o.verifyTransportOk = false then
      (.panicked, [.verifyC])
    else
      match check_auth o.verifyStatus o.verifyParse with
      | .error _ => (.respond 500 errorBody, [.verifyC])
      | .ok data =>
        match data.claims with
        | none => (.respond 500 errorBody, [.verifyC])
        | some claims =>
          if o.policyTransportOk = false then
            (.respond 500 errorBody, [.verifyC, .policyC])
          else
            match o.policyParse with
            | none => (.respond 500 errorBody, [.verifyC, .policyC])
            | some perms =>
              if o.clientOk = false then
                (.respond 500 errorBody, [.verifyC, .policyC])
              else if perms.is_project_owner then
                (.allow, [.verifyC, .policyC])
              else
                match resolvePermission perms claims.user_id imgId o.store with
                | none => (.panicked, [.verifyC, .policyC, .storeC])
                | some true => (.allow, [.verifyC, .policyC, .storeC])
                | some false =>
                    (.respond 500 denyBody, [.verifyC, .policyC, .storeC])

/-- Result of the authentication gate at the top of upload_image and
upload_user_avatar (upload_routes.rs lines 32-49 and 133-150). -/
inductive UploadGate
  | unauthorized
  | proceed (c : Claims)
deriving DecidableEq

/-- The auth gate of the upload handlers: a check_auth error or a success
with empty claims both yield AppResponse::Unauthorized. -/
def upload_image_gate (verifyStatus : Nat)
    (verifyParse : Option VerifyJWTResponse) : UploadGate :=
  match check_auth verifyStatus verifyParse with
  | .error _ => .unauthorized
  | .ok data =>
    match data.claims with
    | none => .unauthorized
    | some c => .proceed c

/-- Number of seconds of PRESIGN_DURATION (main.rs line 36,
Duration::from_secs(300)). -/
def PRESIGN_DURATION_SECS : Nat := 300

/-- The canonical object key assets/project/type/id.webp. -/
def objectKey (projectId : Uuid) (imageType : String) (imageId : Uuid) :
    String :=
  "assets/" ++ projectId ++ "/" ++ imageType ++ "/" ++ imageId ++ ".webp"

/-- The canonical signing string width x height / object key built by the
thumbnail handlers (main.rs lines 99-106). -/
def sizedPath (w h : Nat) (projectId : Uuid) (imageType : String)
    (imageId : Uuid) : String :=
  Nat.repr w ++ "x" ++ Nat.repr h ++ "/" ++ objectKey projectId imageType imageId

/-- Responses a thumbnail handler can produce: an empty 401, a signed
ticket URL, or a presigned object URL carrying its expiry in seconds. -/
inductive ThumbResponse
  | unauthorized
  | ticket (url : String)
  | presigned (key : String) (expirySecs : Nat)
deriving DecidableEq

/-- Whether a thumbnail response carries a delivery URL. -/
def isDelivery : ThumbResponse → Bool
  | .unauthorized => false
  | .ticket _ => true
  | .presigned _ _ => true

/-- UTF-8 encoding of one character as a byte list. -/
def utf8Bytes (c : Char) : List Nat :=
  let n := c.toNat
  if n < 128 then [n]
  else if n < 2048 then
    [192 ||| (n >>> 6), 128 ||| (n &&& 63)]
  else if n < 65536 then
    [224 ||| (n >>> 12), 128 ||| ((n >>> 6) &&& 63), 128 ||| (n &&& 63)]
  else
    [240 ||| (n >>> 18), 128 ||| ((n >>> 12) &&& 63),
     128 ||| ((n >>> 6) &&& 63), 128 ||| (n &&& 63)]

/-- UTF-8 bytes of a string, as Rust's str::as_bytes exposes them. -/
def strBytes (s : String) : List Nat :=
  (s.toList.map utf8Bytes).flatten

/-- The 64-bit word modulus of SHA-512 arithmetic. -/
def w64Mod : Nat := 18446744073709551616

/-- Truncation to a 64-bit word. -/
def w64 (n : Nat) : Nat := n % w64Mod

/-- Right rotation of a 64-bit word. -/
def rotr (x n : Nat) : Nat := w64 ((x >>> n) ||| (x <<< (64 - n)))

/-- Bitwise complement of a 64-bit word. -/
def notW (x : Nat) : Nat := x ^^^ (w64Mod - 1)

/-- SHA-512 choice function. -/
def chFn (x y z : Nat) : Nat := (x &&& y) ^^^ (notW x &&& z)

/-- SHA-512 majority function. -/
def majFn (x y z : Nat) : Nat := (x &&& y) ^^^ (x &&& z) ^^^ (y &&& z)

/-- SHA-512 big sigma 0. -/
def bigSigma0 (x : Nat) : Nat := rotr x 28 ^^^ rotr x 34 ^^^ rotr x 39

/-- SHA-512 big sigma 1. -/
def bigSigma1 (x : Nat) : Nat := rotr x 14 ^^^ rotr x 18 ^^^ rotr x 41

/-- SHA-512 small sigma 0. -/
def smallSigma0 (x : Nat) : Nat := rotr x 1 ^^^ rotr x 8 ^^^ (x >>> 7)

/-- SHA-512 small sigma 1. -/
def smallSigma1 (x : Nat) : Nat := rotr x 19 ^^^ rotr x 61 ^^^ (x >>> 6)

/-- Binary search step for the integer cube root. -/
def cbrtAux (n : Nat) : Nat → Nat → Nat → Nat
  | 0, lo, _ => lo
  | fuel + 1, lo, hi =>
    if hi ≤ lo + 1 then lo
    else
      let mid := (lo + hi) / 2
      if mid * mid * mid ≤ n then cbrtAux n fuel mid hi
      else cbrtAux n fuel lo mid

/-- Integer cube root: the greatest x with x ^ 3 ≤ n, for n below 2 ^ 254. -/
def natCbrt (n : Nat) : Nat := cbrtAux n 256 0 (n + 1)

/-- Trial-division primality test, adequate for the small primes that seed
the SHA-512 constants. -/
def isPrimeNat (n : Nat) : Bool :=
  2 ≤ n && (((List.range n).drop 2).all (fun d => n % d ≠ 0))

/-- The first k primes (k at most the number of primes below 500). -/
def firstPrimes (k : Nat) : List Nat :=
  ((List.range 500).filter isPrimeNat).take k

/-- The 80 SHA-512 round constants: the first 64 bits of the fractional
parts of the cube roots of the first 80 primes. -/
def sha512K : List Nat :=
  (firstPrimes 80).map (fun p => natCbrt (p * 2 ^ 192) % w64Mod)

/-- The 8 SHA-512 initial hash words: the first 64 bits of the fractional
parts of the square roots of the first 8 primes. -/
def sha512H0 : List Nat :=
  (firstPrimes 8).map (fun p => Nat.sqrt (p * 2 ^ 128) % w64Mod)

/-- SHA-512 message padding: append the 0x80 byte, zeros to 112 mod 128,
and the 128-bit big-endian bit length. -/
def sha512Pad (msg : List Nat) : List Nat :=
  let l := msg.length
  let zeros := (128 + 112 - (l + 1) % 128) % 128
  let bitLen := 8 * l
  msg ++ [128] ++ List.replicate zeros 0 ++
    (List.range 16).map (fun i => (bitLen >>> (8 * (15 - i))) % 256)

/-- Split a byte list into chunks of 128, driven by explicit fuel. -/
def chunks128 : Nat → List Nat → List (List Nat)
  | 0, _ => []
  | _ + 1, [] => []
  | fuel + 1, l => l.take 128 :: chunks128 fuel (l.drop 128)

/-- Big-endian 64-bit word from a byte list slice. -/
def beWord (bytes : List Nat) : Nat :=
  bytes.foldl (fun acc b => acc * 256 + b) 0

/-- The 16 initial schedule words of one 128-byte block. -/
def blockWords (block : List Nat) : List Nat :=
  (List.range 16).map (fun i => beWord ((block.drop (8 * i)).take 8))

/-- The 80-entry SHA-512 message schedule of one block. -/
def msgSchedule (w16 : List Nat) : Array Nat :=
  (List.range 64).foldl
    (fun w i =>
      let j := i + 16
      w.push (w64 (smallSigma1 (w.getD (j - 2) 0) + w.getD (j - 7) 0 +
        smallSigma0 (w.getD (j - 15) 0) + w.getD (j - 16) 0)))
    w16.toArray

/-- One SHA-512 compression round. -/
def sha512Round (w : Array Nat) (t : Nat)
    (st : Nat × Nat × Nat × Nat × Nat × Nat × Nat × Nat) :
    Nat × Nat × Nat × Nat × Nat × Nat × Nat × Nat :=
  let (a, b, c, d, e, f, g, h) := st
  let t1 := w64 (h + bigSigma1 e + chFn e f g + sha512K.getD t 0 + w.getD t 0)
  let t2 := w64 (bigSigma0 a + majFn a b c)
  (w64 (t1 + t2), a, b, c, w64 (d + t1), e, f, g)

/-- Compression of one 128-byte block into the running hash state. -/
def sha512Compress (hs : List Nat) (block : List Nat) : List Nat :=
  let w := msgSchedule (blockWords block)
  let init := (hs.getD 0 0, hs.getD 1 0, hs.getD 2 0, hs.getD 3 0,
               hs.getD 4 0, hs.getD 5 0, hs.getD 6 0, hs.getD 7 0)
  let (a, b, c, d, e, f, g, h) :=
    (List.range 80).foldl (fun st t => sha512Round w t st) init
  [w64 (hs.getD 0 0 + a), w64 (hs.getD 1 0 + b), w64 (hs.getD 2 0 + c),
   w64 (hs.getD 3 0 + d), w64 (hs.getD 4 0 + e), w64 (hs.getD 5 0 + f),
   w64 (hs.getD 6 0 + g), w64 (hs.getD 7 0 + h)]

/-- SHA-512 digest of a byte list, as a 64-byte list. -/
def sha512 (msg : List Nat) : List Nat :=
  let padded := sha512Pad msg
  let final :=
    (chunks128 padded.length padded).foldl sha512Compress sha512H0
  (final.map (fun h => (List.range 8).map (fun i => (h >>> (8 * (7 - i))) % 256))).flatten

/-- HMAC-SHA-512 of a message under a key, per RFC 2104 with a 128-byte
block: a long key is first hashed, a short one zero-padded. -/
def hmacSha512 (key msg : List Nat) : List Nat :=
  let k0 :=
    if 128 < key.length then sha512 key ++ List.replicate 64 0
    else key ++ List.replicate (128 - key.length) 0
  let ipadded := k0.map (fun b => b ^^^ 54)
  let opadded := k0.map (fun b => b ^^^ 92)
  sha512 (opadded ++ sha512 (ipadded ++ msg))

/-- The standard base64 alphabet. -/
def b64Alphabet : List Char :=
  "ABCDEFGHIJKLMNOPQRSTUVWXYZabcdefghijklmnopqrstuvwxyz0123456789+/".toList

/-- Character of one 6-bit group. -/
def b64Char (i : Nat) : Char := b64Alphabet.getD i 'A'

/-- Standard base64 encoding with padding, as BASE64_STANDARD produces. -/
def base64Encode : List Nat → List Char
  | [] => []
  | [b1] =>
    [b64Char (b1 >>> 2), b64Char ((b1 &&& 3) <<< 4), '=', '=']
  | [b1, b2] =>
    [b64Char (b1 >>> 2), b64Char (((b1 &&& 3) <<< 4) ||| (b2 >>> 4)),
     b64Char ((b2 &&& 15) <<< 2), '=']
  | b1 :: b2 :: b3 :: rest =>
    b64Char (b1 >>> 2) :: b64Char (((b1 &&& 3) <<< 4) ||| (b2 >>> 4)) ::
    b64Char (((b2 &&& 15) <<< 2) ||| (b3 >>> 6)) :: b64Char (b3 &&& 63) ::
    base64Encode rest

/-- The URL-safe substitution applied to the base64 signature: every '+'
becomes '-', then every '/' becomes '_' (the two str::replace calls). -/
def urlSafeSubst (cs : List Char) : List Char :=
  (cs.map (fun c => if c = '+' then '-' else c)).map
    (fun c => if c = '/' then '_' else c)

/-- The characters of the signature segment of a ticket URL: standard
base64 of the HMAC-SHA-512 digest of the sized path under the thumbnail
secret, with the URL-safe character substitution. -/
def ticketSignatureChars (secret sized : String) : List Char :=
  urlSafeSubst (base64Encode (hmacSha512 (strBytes secret) (strBytes sized)))

/-- The signature segment as the String interpolated into the URL. -/
def ticketSignature (secret sized : String) : String :=
  String.mk (ticketSignatureChars secret sized)

/-- The full signed ticket URL built by the thumbnail handlers
(main.rs lines 97-131, thumbnail_routes.rs lines 100-125). -/
def ticketUrl (secret tsUrl : String) (w h : Nat) (projectId : Uuid)
    (imageType : String) (imageId : Uuid) : String :=
  tsUrl ++ "/" ++ ticketSignature secret (sizedPath w h projectId imageType imageId)
    ++ "/" ++ sizedPath w h projectId imageType imageId

/-- The delivery chooser shared by both thumbnail handlers: the ticket mode
runs iff both dimensions are present, otherwise a presigned object URL with
the fixed PRESIGN_DURATION expiry is issued. -/
def thumbnailDelivery (secret tsUrl : String) (width height : Option Nat)
    (projectId : Uuid) (imageType : String) (imageId : Uuid) : ThumbResponse :=
  if width.isSome && height.isSome then
    .ticket (ticketUrl secret tsUrl (width.getD 0) (height.getD 0) projectId
      imageType imageId)
  else
    .presigned (objectKey projectId imageType imageId) PRESIGN_DURATION_SECS

/-- The thumbnail handler of main.rs (lines 56-159): it checks only the
HTTP status of the verify call and never reads the claims of its body
before issuing a delivery URL. -/
def get_thumbnail_main (verifyStatus : Nat)
    (verifyParse : Option VerifyJWTResponse) (secret tsUrl : String)
    (width height : Option Nat) (projectId : Uuid) (imageType : String)
    (imageId : Uuid) : ThumbResponse :=
  if verifyStatus ≠ 200 then .unauthorized
  else
    match verifyParse with
    | _ => thumbnailDelivery secret tsUrl width height projectId imageType imageId

/-- Configuration of the thumbnail_routes.rs handler. -/
structure ThumbRoutesCfg where
  discordDomain : Option String
  apiKeyCfg : String
  secret : String
  tsUrl : String

/-- Request inputs of the thumbnail_routes.rs handler. -/
structure ThumbRoutesReq where
  apiKey : Option String
  accessCookie : Option String
  refreshCookie : Option String
  width : Option Nat
  height : Option Nat
  projectId : Uuid
  imageType : String
  imageId : Uuid

/-- The thumbnail handler of thumbnail_routes.rs (lines 36-145).  The
result pairs the response with a flag recording whether the verify
endpoint was called; `none` models the panic of url.domain().unwrap() when
the configured discord service URL has no domain.  Both branches of the
domain guard compare the same url.domain() value with itself, so the
cookie-verification branch is unreachable whenever a domain exists. -/
def get_thumbnail_routes (cfg : ThumbRoutesCfg) (verifyStatus : Nat)
    (req : ThumbRoutesReq) : Option (ThumbResponse × Bool) :=
  match cfg.discordDomain with
  | none => none
  | some d =>
    if d ≠ d then
      if verifyStatus ≠ 200 then some (.unauthorized, true)
      else
        some (thumbnailDelivery cfg.secret cfg.tsUrl req.width req.height
          req.projectId req.imageType req.imageId, true)
    else
      match req.apiKey with
      | some k =>
        if k ≠ cfg.apiKeyCfg then some (.unauthorized, false)
        else
          some (thumbnailDelivery cfg.secret cfg.tsUrl req.width req.height
            req.projectId req.imageType req.imageId, false)
      | none =>
        some (thumbnailDelivery cfg.secret cfg.tsUrl req.width req.height
          req.projectId req.imageType req.imageId, false)

/-- Rendering of a cookie as the cookie crate's Display produces it:
name=value.  The handlers call .to_string() on the whole Cookie, not on
its value. -/
def cookieRender (name value : String) : String := name ++ "=" ++ value

/-- The value placed in the verify request body for one session cookie
(auth_utils.rs lines 18-27, main.rs lines 63-75): the cookie found in the
jar, or a freshly built empty cookie when absent, rendered with Display. -/
def verifyBodyField (name : String) (cookie : Option String) : String :=
  match cookie with
  | some v => cookieRender name v
  | none => cookieRender name ""

/-- The JSON body sent to the verify endpoint, as an association list. -/
def verifyBody (access refresh : Option String) : List (String × String) :=
  [("access", verifyBodyField "access" access),
   ("refresh", verifyBodyField "refresh" refresh)]

/-- One permission entry of the update payload (crud_routes.rs lines
37-43). -/
structure PermUpdate where
  related_id : Uuid
  user_id : Option Uuid
  permission_id : Option Uuid
  role_id : Option Uuid

/-- Whether an entry takes the role-grant branch of the sync loop. -/
def roleShape (p : PermUpdate) : Bool :=
  p.role_id.isSome && p.permission_id.isNone && p.user_id.isNone

/-- Whether an entry takes the user-plus-permission branch. -/
def userPermShape (p : PermUpdate) : Bool :=
  p.permission_id.isSome && p.user_id.isSome

/-- Outcomes of the store operations one sync transaction performs. -/
structure SyncOracle where
  clientOk : Bool
  delOk : Bool
  insertOk : Bool
  commitOk : Bool

/-- What one sync transaction did: whether its delete and insert statements
succeeded, whether commit was ever executed, and whether it succeeded.  A
transaction dropped without commit rolls back. -/
structure TxnTrace where
  related : Uuid
  delSucceeded : Bool
  insSucceeded : Bool
  commitExecuted : Bool
  committed : Bool
deriving DecidableEq

/-- Responses the update route can produce, collapsed to the two shapes the
caller distinguishes. -/
inductive UpdateResp
  | success
  | error (msg : String)
deriving DecidableEq

/-- The permission-sync loop of update_asset (crud_routes.rs lines
159-251).  Every statement failure is only logged; a pool checkout failure
aborts the loop early but still returns the success response; commit runs
only after both delete and insert succeeded. -/
def permissionSync : List (PermUpdate × SyncOracle) → UpdateResp × List TxnTrace
  | [] => (.success, [])
  | (perm, o) :: rest =>
    if roleShape perm || (!roleShape perm && userPermShape perm) then
      if o.clientOk = false then (.success, [])
      else
        let del := o.delOk
        let ins := del && o.insertOk
        let t : TxnTrace :=
          ⟨perm.related_id, del, ins, ins, ins && o.commitOk⟩
        let (resp, ts) := permissionSync rest
        (resp, t :: ts)
    else
      permissionSync rest

/-- Outcome of the primary field update phase of update_asset (title,
owner_id, file), before the permission sync runs. -/
inductive PrimaryOutcome
  | ok
  | failed (msg : String)

/-- The response and sync trace of update_asset (crud_routes.rs lines
75-254): a primary-phase failure returns its error; otherwise the
permission-sync phase runs (when a permissions field was sent) and the
route answers with the update success response. -/
def update_asset (primary : PrimaryOutcome)
    (perms : Option (List (PermUpdate × SyncOracle))) :
    UpdateResp × List TxnTrace :=
  match primary with
  | .failed m => (.error m, [])
  | .ok =>
    match perms with
    | none => (.success, [])
    | some l => permissionSync l

/-- Sample store: image img1 owned by alice, carrying a role grant for
roleX. -/
def storeA : Store :=
  ⟨[⟨"img1", "alice"⟩], [⟨"img1", none, some "roleX", none⟩]⟩

/-- Sample grant context: not project owner, role roleX, permission
permY. -/
def permsA : PermissionCheckResponse := ⟨false, some "roleX", some "permY"⟩

/-- Sample verified identity. -/
def claimsBob : Claims := ⟨"bob", "proj"⟩

/-- Sample middleware request hitting the update route. -/
def inpUpd : MwInput := ⟨"/assets/update/img1", false, some "img1"⟩

/-- Sample oracle set under which the middleware reaches resolution. -/
def oraclesA : MwOracles :=
  ⟨true, 200, some ⟨some claimsBob⟩, true, some permsA, true, .ok storeA⟩

/-- Store in which the caller of oraclesA (bob) owns img1 and two distinct
role grants sit on it: both joined rows pass the WHERE clause through the
ownership disjunct alone. -/
def storeMulti : Store :=
  ⟨[⟨"img1", "bob"⟩],
   [⟨"img1", none, some "roleX", none⟩, ⟨"img1", none, some "roleQ", none⟩]⟩

/-- The allow condition exactly as claim C3 states it: project ownership
override, direct image ownership, a role grant matching the context's
role, or a user-plus-permission grant matching the caller and the
context's permission.  Equality between two nullable identifiers is read
as the SQL query evaluates it: both sides present and equal (a NULL
grant-context identifier matches no row). -/
def specAllowed (perms : PermissionCheckResponse) (st : Store)
    (imgId userId : Uuid) : Prop :=
  perms.is_project_owner = true
  ∨ (∃ img ∈ st.images, img.id = imgId ∧ img.owner_id = userId)
  ∨ (∃ img ∈ st.images, img.id = imgId ∧
      ∃ ep ∈ st.entity_permissions, ep.related_id = imgId ∧
        ep.role_id ≠ none ∧ ep.role_id = perms.role_id)
  ∨ (∃ img ∈ st.images, img.id = imgId ∧
      ∃ ep ∈ st.entity_permissions, ep.related_id = imgId ∧
        ep.user_id = some userId ∧ ep.permission_id ≠ none ∧
        ep.permission_id = perms.permission_id)

/-- Claim C3 (evidence of the code bug): the claim requires Allow exactly
when ownership, a role grant, or a user-plus-permission grant matches (or
the project-owner override holds).  On a store where the caller owns the
image and two ACL rows sit on it, the claim's condition holds through
ownership, but the LEFT JOIN returns two WHERE-passing rows, query_opt
answers with its more-than-one-row error, and the middleware panics
through the same discarded-error unwrap as claim C1 — the request is
neither allowed nor denied.  With a single matching row (third conjunct)
the middleware does allow, so the divergence is specific to multi-row
result sets. -/
theorem claim_C3_multirow_match_panics :
    specAllowed permsA storeMulti "img1" claimsBob.user_id
    ∧ permission_middleware inpUpd { oraclesA with store := .ok storeMulti }
        = (.panicked, [.verifyC, .policyC, .storeC])
    ∧ permission_middleware inpUpd oraclesA
        = (.allow, [.verifyC, .policyC, .storeC]) := by
  refine ⟨?_, by decide, by decide⟩
  unfold specAllowed
  decide

/-- Claim C1 (evidence of the code bug): at a request that reaches the
resolver with is_project_owner false and a store query error, the
middleware panics — the discarded `false;` statement never feeds the
decision and the subsequent `.unwrap()` fires — instead of failing closed
with an infrastructure error as the claim requires. -/
theorem claim_C1_store_error_panics :
    permission_middleware inpUpd { oraclesA with store := .error "connection reset" }
      = (.panicked, [.verifyC, .policyC, .storeC])
    ∧ (permission_middleware inpUpd
        { oraclesA with store := .error "connection reset" }).1 ≠
        .respond 500 denyBody := by
  constructor
  · rfl
  · intro hcon
    have hval : (permission_middleware inpUpd
        { oraclesA with store := .error "connection reset" }).1
          = MwOutcome.panicked := rfl
    rw [hval] at hcon
    exact absurd hcon (by simp)

/-- Counterexample to claim C2: the thumbnail read path of main.rs answers
a verification response of status 200 whose claims field is null with a
delivery URL — it never reads the claims — so the empty-claims case is not
treated as an authentication failure by every caller. -/
theorem claim_C2_counterexample :
    get_thumbnail_main 200 (some ⟨none⟩) "secret" "https://thumb"
        none none "proj1" "images" "img1"
      = .presigned (objectKey "proj1" "images" "img1") PRESIGN_DURATION_SECS
    ∧ isDelivery (get_thumbnail_main 200 (some ⟨none⟩) "secret" "https://thumb"
        none none "proj1" "images" "img1") = true := by
  exact ⟨rfl, rfl⟩

/-- Both delivery modes of the thumbnail chooser carry a URL. -/
theorem isDelivery_thumbnailDelivery (secret tsUrl : String)
    (width height : Option Nat) (p : Uuid) (t : String) (i : Uuid) :
    isDelivery (thumbnailDelivery secret tsUrl width height p t i) = true := by
  unfold thumbnailDelivery
  by_cases hc : (width.isSome && height.isSome) = true
  · rw [if_pos hc]
    rfl
  · rw [if_neg hc]
    rfl

/-- Claim C2 as amended: the CRUD permission middleware and the upload
handlers treat an HTTP 200 verification response with empty claims as an
authentication failure, while the thumbnail read path of main.rs never
inspects the claims field at all — its response is independent of the
verification body and a delivery URL is issued whenever the status is
200. -/
theorem claim_C2_amended (inp : MwInput) (o : MwOracles) (imgId : Uuid)
    (h1 : inp.parsedId = some imgId)
    (h2 : classifyAction inp.url inp.methodIsDelete ≠ "NONE")
    (h3 : o.verifyTransportOk = true)
    (h4 : o.verifyStatus = 200)
    (h5 : o.verifyParse = some ⟨none⟩) :
    permission_middleware inp o = (.respond 500 errorBody, [.verifyC])
    ∧ upload_image_gate 200 (some ⟨none⟩) = .unauthorized
    ∧ ∀ (parse1 parse2 : Option VerifyJWTResponse) (secret tsUrl : String)
        (w h : Option Nat) (p : Uuid) (t : String) (i : Uuid),
        get_thumbnail_main 200 parse1 secret tsUrl w h p t i
          = get_thumbnail_main 200 parse2 secret tsUrl w h p t i
        ∧ isDelivery (get_thumbnail_main 200 parse1 secret tsUrl w h p t i)
            = true := by
  refine ⟨?_, rfl, ?_⟩
  · have hca : check_auth o.verifyStatus o.verifyParse = .ok ⟨none⟩ := by
      unfold check_auth
      rw [h4, h5]
      simp
    unfold permission_middleware
    simp only [h1, h3, hca, if_neg h2]
    simp
  · intro parse1 parse2 secret tsUrl w h p t i
    constructor
    · cases parse1 <;> cases parse2 <;> rfl
    · have hdel : ∀ parse : Option VerifyJWTResponse,
          get_thumbnail_main 200 parse secret tsUrl w h p t i
            = thumbnailDelivery secret tsUrl w h p t i := by
        intro parse
        cases parse <;> rfl
      rw [hdel]
      exact isDelivery_thumbnailDelivery secret tsUrl w h p t i

/-- Witness for the amended claim C2 at a concrete request. -/
theorem claim_C2_witness :
    permission_middleware inpUpd { oraclesA with verifyParse := some ⟨none⟩ }
        = (.respond 500 errorBody, [.verifyC])
    ∧ upload_image_gate 200 (some ⟨none⟩) = .unauthorized
    ∧ ∀ (parse1 parse2 : Option VerifyJWTResponse) (secret tsUrl : String)
        (w h : Option Nat) (p : Uuid) (t : String) (i : Uuid),
        get_thumbnail_main 200 parse1 secret tsUrl w h p t i
          = get_thumbnail_main 200 parse2 secret tsUrl w h p t i
        ∧ isDelivery (get_thumbnail_main 200 parse1 secret tsUrl w h p t i)
            = true :=
  claim_C2_amended inpUpd { oraclesA with verifyParse := some ⟨none⟩ } "img1"
    rfl (by decide) rfl rfl rfl

/-- Claim C4: in the thumbnail_routes.rs handler, whenever the configured
discord service URL has a domain, two requests without an X-API-KEY header
that differ only in their access/refresh cookies (and in the verify
oracle, which is never consulted) receive the same response; the
cookie-verification branch never runs, the response is never the 401 and
it always carries a delivery URL. -/
theorem claim_C4_cookie_blind (cfg : ThumbRoutesCfg) (d : String)
    (hd : cfg.discordDomain = some d) (v1 v2 : Nat) (r1 r2 : ThumbRoutesReq)
    (hk1 : r1.apiKey = none) (hk2 : r2.apiKey = none)
    (hw : r1.width = r2.width) (hh : r1.height = r2.height)
    (hp : r1.projectId = r2.projectId) (ht : r1.imageType = r2.imageType)
    (hi : r1.imageId = r2.imageId) :
    get_thumbnail_routes cfg v1 r1 = get_thumbnail_routes cfg v2 r2
    ∧ get_thumbnail_routes cfg v1 r1
        = some (thumbnailDelivery cfg.secret cfg.tsUrl r1.width r1.height
            r1.projectId r1.imageType r1.imageId, false)
    ∧ isDelivery (thumbnailDelivery cfg.secret cfg.tsUrl r1.width r1.height
        r1.projectId r1.imageType r1.imageId) = true := by
  have key : ∀ (v : Nat) (r : ThumbRoutesReq), r.apiKey = none →
      get_thumbnail_routes cfg v r
        = some (thumbnailDelivery cfg.secret cfg.tsUrl r.width r.height
            r.projectId r.imageType r.imageId, false) := by
    intro v r hk
    unfold get_thumbnail_routes
    simp only [hd, hk]
    simp
  refine ⟨?_, key v1 r1 hk1, isDelivery_thumbnailDelivery _ _ _ _ _ _ _⟩
  rw [key v1 r1 hk1, key v2 r2 hk2, hw, hh, hp, ht, hi]

/-- Witness for claim C4: two concrete cookie-differing requests without
an API key under domain-bearing configuration. -/
theorem claim_C4_witness :
    get_thumbnail_routes ⟨some "discord.example", "k", "sec", "https://thumb"⟩ 200
        ⟨none, some "tok1", some "r1", none, none, "P", "images", "I"⟩
      = get_thumbnail_routes ⟨some "discord.example", "k", "sec", "https://thumb"⟩ 503
        ⟨none, none, none, none, none, "P", "images", "I"⟩
    ∧ get_thumbnail_routes ⟨some "discord.example", "k", "sec", "https://thumb"⟩ 200
        ⟨none, some "tok1", some "r1", none, none, "P", "images", "I"⟩
      = some (thumbnailDelivery "sec" "https://thumb" none none "P" "images" "I",
          false)
    ∧ isDelivery (thumbnailDelivery "sec" "https://thumb" none none "P" "images"
        "I") = true :=
  claim_C4_cookie_blind ⟨some "discord.example", "k", "sec", "https://thumb"⟩
    "discord.example" rfl 200 503
    ⟨none, some "tok1", some "r1", none, none, "P", "images", "I"⟩
    ⟨none, none, none, none, none, "P", "images", "I"⟩
    rfl rfl rfl rfl rfl rfl rfl

/-- The first substitution map can produce no '+' and the second none
either, so the signature never contains '+'. -/
theorem urlSafeSubst_no_plus (cs : List Char) : '+' ∉ urlSafeSubst cs := by
  unfold urlSafeSubst
  intro hmem
  rw [List.mem_map] at hmem
  obtain ⟨b, hb, hbe⟩ := hmem
  rw [List.mem_map] at hb
  obtain ⟨a, _, hae⟩ := hb
  by_cases hb2 : b = '/'
  · rw [if_pos hb2] at hbe
    exact absurd hbe (by decide)
  · rw [if_neg hb2] at hbe
    subst hbe
    by_cases ha2 : a = '+'
    · rw [if_pos ha2] at hae
      exact absurd hae (by decide)
    · rw [if_neg ha2] at hae
      exact ha2 hae

/-- The second substitution map rewrites every '/' away. -/
theorem urlSafeSubst_no_slash (cs : List Char) : '/' ∉ urlSafeSubst cs := by
  unfold urlSafeSubst
  intro hmem
  rw [List.mem_map] at hmem
  obtain ⟨b, _, hbe⟩ := hmem
  by_cases hb2 : b = '/'
  · rw [if_pos hb2] at hbe
    exact absurd hbe (by decide)
  · rw [if_neg hb2] at hbe
    exact hb2 hbe

/-- Merging the path separator into the literal that follows it. -/
theorem slash_assets_merge (x : String) :
    "/" ++ ("assets/" ++ x) = "/assets/" ++ x := by
  rw [← String.append_assoc]
  rfl

/-- Claim C5: the ticket URL is thumbnail_service_url / signature /
width x height /assets/ project / type / id .webp, where the signature is
the standard base64 encoding of HMAC-SHA-512(secret, sized path) with
every '+' replaced by '-' and every '/' replaced by '_'; the signature
contains neither '+' nor '/'.  Determinism is immediate: the signature is
a pure function of its inputs. -/
theorem claim_C5_ticket_format (secret tsUrl : String) (w h : Nat)
    (p : Uuid) (t : String) (i : Uuid) :
    ticketUrl secret tsUrl w h p t i
      = tsUrl ++ "/"
        ++ String.mk (((base64Encode (hmacSha512 (strBytes secret)
              (strBytes (sizedPath w h p t i)))).map
                (fun c => if c = '+' then '-' else c)).map
                (fun c => if c = '/' then '_' else c))
        ++ "/" ++ Nat.repr w ++ "x" ++ Nat.repr h ++ "/" ++ "assets/" ++ p
        ++ "/" ++ t ++ "/" ++ i ++ ".webp"
    ∧ '+' ∉ ticketSignatureChars secret (sizedPath w h p t i)
    ∧ '/' ∉ ticketSignatureChars secret (sizedPath w h p t i) := by
  constructor
  · unfold ticketUrl ticketSignature ticketSignatureChars urlSafeSubst sizedPath objectKey
    simp [String.append_assoc, slash_assets_merge]
  constructor
  · unfold ticketSignatureChars
    exact urlSafeSubst_no_plus _
  · unfold ticketSignatureChars
    exact urlSafeSubst_no_slash _

/-- Claim C6: whenever the verify round trip completes with a status other
than 200, the middleware answers with an early response and the policy
lookup call is never issued. -/
theorem claim_C6_non200_before_policy (inp : MwInput) (o : MwOracles)
    (h1 : o.verifyTransportOk = true) (h2 : o.verifyStatus ≠ 200) :
    ExtCall.policyC ∉ (permission_middleware inp o).2
    ∧ ∃ s m, (permission_middleware inp o).1 = .respond s m := by
  have hca : check_auth o.verifyStatus o.verifyParse
      = .error (401, "UNAUTHORIZED") := by
    unfold check_auth
    rw [if_neg h2]
  cases hpid : inp.parsedId with
  | none =>
    have hred : permission_middleware inp o = (.respond 500 errorBody, []) := by
      simp only [permission_middleware, hpid]
    rw [hred]
    exact ⟨by simp, 500, errorBody, rfl⟩
  | some imgId =>
    by_cases hact : classifyAction inp.url inp.methodIsDelete = "NONE"
    · have hred : permission_middleware inp o = (.respond 500 errorBody, []) := by
        simp only [permission_middleware, hpid, if_pos hact]
      rw [hred]
      exact ⟨by simp, 500, errorBody, rfl⟩
    · have hred : permission_middleware inp o
          = (.respond 500 errorBody, [.verifyC]) := by
        simp only [permission_middleware, hpid, if_neg hact, h1, hca]
        simp
      rw [hred]
      exact ⟨by decide, 500, errorBody, rfl⟩

/-- Witness for claim C6: a 503 verify response at a concrete request. -/
theorem claim_C6_witness :
    ExtCall.policyC ∉
      (permission_middleware inpUpd { oraclesA with verifyStatus := 503 }).2
    ∧ ∃ s m, (permission_middleware inpUpd
        { oraclesA with verifyStatus := 503 }).1 = .respond s m :=
  claim_C6_non200_before_policy inpUpd { oraclesA with verifyStatus := 503 }
    rfl (by decide)

/-- Counterexample to claim C7: with both session cookies absent, the
verify body's fields hold the Display rendering of a freshly built empty
cookie — the string name=, produced by calling to_string() on the whole
Cookie — not the empty string the claim asserts. -/
theorem claim_C7_counterexample :
    (verifyBody none none).lookup "access" = some "access="
    ∧ (verifyBody none none).lookup "refresh" = some "refresh="
    ∧ "access=" ≠ "" ∧ "refresh=" ≠ "" := by
  refine ⟨rfl, rfl, ?_, ?_⟩ <;> decide

/-- Claim C7 as amended: the fields access and refresh are always present
in the verify body — never omitted and never null — and an absent cookie
contributes the name=value rendering of an empty cookie (access= or
refresh=), which is what the source's Cookie::to_string() produces, rather
than the bare empty string. -/
theorem claim_C7_amended (access refresh : Option String) :
    (verifyBody access refresh).lookup "access"
        = some (verifyBodyField "access" access)
    ∧ (verifyBody access refresh).lookup "refresh"
        = some (verifyBodyField "refresh" refresh)
    ∧ verifyBodyField "access" none = "access="
    ∧ verifyBodyField "refresh" none = "refresh="
    ∧ (∀ v : String, verifyBodyField "access" (some v) = "access=" ++ v) := by
  exact ⟨rfl, rfl, rfl, rfl, fun v => rfl⟩

/-- The permission-sync loop always reports the update success response,
whatever the per-transaction outcomes. -/
theorem permissionSync_success (l : List (PermUpdate × SyncOracle)) :
    (permissionSync l).1 = .success := by
  induction l with
  | nil => rfl
  | cons x rest ih =>
    obtain ⟨perm, o⟩ := x
    unfold permissionSync
    by_cases hsh : (roleShape perm || (!roleShape perm && userPermShape perm)) = true
    · rw [if_pos hsh]
      by_cases hc : o.clientOk = false
      · rw [if_pos hc]
      · rw [if_neg hc]
        cases hpr : permissionSync rest with
        | mk resp ts =>
          rw [hpr] at ih
          simpa using ih
    · rw [if_neg hsh]
      exact ih

/-- In every transaction the sync loop records, commit execution coincides
with the insert statement having succeeded. -/
theorem permissionSync_commit_eq_insert (l : List (PermUpdate × SyncOracle)) :
    ∀ t ∈ (permissionSync l).2, t.commitExecuted = t.insSucceeded := by
  induction l with
  | nil =>
    intro t ht
    simp [permissionSync] at ht
  | cons x rest ih =>
    obtain ⟨perm, o⟩ := x
    intro t ht
    unfold permissionSync at ht
    by_cases hsh : (roleShape perm || (!roleShape perm && userPermShape perm)) = true
    · rw [if_pos hsh] at ht
      by_cases hc : o.clientOk = false
      · rw [if_pos hc] at ht
        simp at ht
      · rw [if_neg hc] at ht
        cases hpr : permissionSync rest with
        | mk resp ts =>
          rw [hpr] at ht ih
          simp only [List.mem_cons] at ht
          rcases ht with rfl | hts
          · rfl
          · exact ih t hts
    · rw [if_neg hsh] at ht
      exact ih t ht

/-- Claim C8: once the primary field update has succeeded, the update
route's response is the success message regardless of what the
permission-sync phase does, and a transaction whose insert statement did
not succeed never executes commit, so its delete rolls back with the
dropped transaction. -/
theorem claim_C8_sync_failure_still_success
    (perms : Option (List (PermUpdate × SyncOracle))) :
    (update_asset .ok perms).1 = .success
    ∧ ∀ t ∈ (update_asset .ok perms).2,
        t.insSucceeded = false → t.commitExecuted = false := by
  cases perms with
  | none =>
    refine ⟨rfl, ?_⟩
    intro t ht
    simp [update_asset] at ht
  | some l =>
    refine ⟨permissionSync_success l, ?_⟩
    intro t ht hins
    have hce := permissionSync_commit_eq_insert l t ht
    rw [hce, hins]

/-- Witness for claim C8: a sync entry whose insert fails still yields the
success response. -/
theorem claim_C8_witness :
    (update_asset .ok (some [(⟨"r1", none, none, some "roleZ"⟩,
        ⟨true, true, false, true⟩)])).1 = .success :=
  (claim_C8_sync_failure_still_success
    (some [(⟨"r1", none, none, some "roleZ"⟩, ⟨true, true, false, true⟩)])).1

/-- Counterexample to claim C9: the configured presign expiry is 300
seconds (5 minutes), which is a single fixed duration but not of the order
of tens of minutes to an hour, read as at least 600 and at most 3600
seconds. -/
theorem claim_C9_counterexample :
    PRESIGN_DURATION_SECS = 300
    ∧ ¬(600 ≤ PRESIGN_DURATION_SECS ∧ PRESIGN_DURATION_SECS ≤ 3600) := by
  decide

/-- Claim C9 as amended: every direct-mode thumbnail request is answered
with a presigned URL whose expiry is the single fixed configured duration
PRESIGN_DURATION of 300 seconds (5 minutes). -/
theorem claim_C9_amended (verifyStatus : Nat)
    (parse : Option VerifyJWTResponse) (secret tsUrl : String)
    (width height : Option Nat) (p : Uuid) (t : String) (i : Uuid)
    (hv : verifyStatus = 200)
    (hdir : (width.isSome && height.isSome) = false) :
    get_thumbnail_main verifyStatus parse secret tsUrl width height p t i
      = .presigned (objectKey p t i) PRESIGN_DURATION_SECS
    ∧ PRESIGN_DURATION_SECS = 300 := by
  subst hv
  refine ⟨?_, rfl⟩
  have hdel : get_thumbnail_main 200 parse secret tsUrl width height p t i
      = thumbnailDelivery secret tsUrl width height p t i := by
    cases parse <;> rfl
  rw [hdel]
  unfold thumbnailDelivery
  rw [if_neg (by rw [hdir]; exact Bool.false_ne_true)]

/-- Witness for the amended claim C9 at a concrete direct-mode request
with one dimension supplied. -/
theorem claim_C9_witness :
    get_thumbnail_main 200 none "sec" "https://thumb" (some 200) none
        "P" "images" "I"
      = .presigned (objectKey "P" "images" "I") PRESIGN_DURATION_SECS
    ∧ PRESIGN_DURATION_SECS = 300 :=
  claim_C9_amended 200 none "sec" "https://thumb" (some 200) none
    "P" "images" "I" rfl rfl

/-- Claim C10: the delivery chooser shared by both thumbnail handlers
issues a signed ticket iff both the width and the height parameter are
present; a request with exactly one dimension is answered with the same
direct presigned response as a request with none, and the main.rs handler
reduces to the chooser whenever the verify status is 200. -/
theorem claim_C10_ticket_iff_both_dimensions
    (parse : Option VerifyJWTResponse) (secret tsUrl : String)
    (p : Uuid) (t : String) (i : Uuid) :
    (∀ width height : Option Nat,
      (∃ u, thumbnailDelivery secret tsUrl width height p t i = .ticket u)
        ↔ (width.isSome = true ∧ height.isSome = true))
    ∧ (∀ w : Nat, thumbnailDelivery secret tsUrl (some w) none p t i
        = thumbnailDelivery secret tsUrl none none p t i)
    ∧ (∀ h : Nat, thumbnailDelivery secret tsUrl none (some h) p t i
        = thumbnailDelivery secret tsUrl none none p t i)
    ∧ (∀ width height : Option Nat,
        get_thumbnail_main 200 parse secret tsUrl width height p t i
          = thumbnailDelivery secret tsUrl width height p t i) := by
  refine ⟨?_, fun w => ?_, fun h => ?_, fun width height => ?_⟩
  · intro width height
    unfold thumbnailDelivery
    by_cases hc : (width.isSome && height.isSome) = true
    · rw [if_pos hc]
      constructor
      · intro _
        exact Bool.and_eq_true_iff.mp hc
      · intro _
        exact ⟨_, rfl⟩
    · rw [if_neg hc]
      constructor
      · rintro ⟨u, hu⟩
        simp at hu
      · rintro ⟨hw, hh⟩
        exact absurd (by rw [hw, hh]; rfl) hc
  · simp [thumbnailDelivery]
  · simp [thumbnailDelivery]
  · cases parse <;> rfl
